import Mathlib

/-!
Verification of the `CompositeModel` core of this repository
(`newmodel.py`): the theta-vector bookkeeping (`set_parameters`) and the
analytic gradient computation (`lnprob_grad`).

Numbers are modelled as rationals (Python floats are used only through
`+ - * / **` here, so field structure is what matters); the single
transcendental operation `x ↦ 10 ** x` is kept as an abstract function
parameter `tenPow`.  Python dictionaries (`self.params`, the gradient
dictionaries) are association lists whose observable behaviour is
`lookup` (most recent binding wins); assignment is modelled by consing.
Python exceptions become an `Except PyErr` result; `theta[a:b]` slicing
clamps, exactly as `List.drop/take` do.  The source is Python 2 era
(bsfh, 2014), so `dict.keys()` is a plain list and
`theta_desc.keys() == ['mass']` holds exactly when the key list is
`["mass"]`.
-/

namespace Prospector

/-- A value stored in the model's `params` dictionary: a numeric array,
a Python int (such as the `imf_type` flag), or some other scalar /
opaque object (such as `dust_curve`), which we only need to carry
around unchanged. -/
inductive PVal where
  | arr : List ℚ → PVal
  | int : ℤ → PVal
  | rat : ℚ → PVal
deriving DecidableEq, Repr

/-- The model's parameter dictionary `self.params`.  Assignment conses a
binding; `List.lookup` returns the most recent one, which is exactly the
observable behaviour of a Python dict. -/
abbrev Store := List (String × PVal)

/-- One entry of `self.theta_desc`: the start offset `i0` and length `N`
of a named parameter inside the flat theta vector. -/
structure DescEntry where
  i0 : ℕ
  N : ℕ
deriving DecidableEq, Repr

/-- `self.theta_desc`: a dictionary from parameter name to descriptor
entry.  Keys are unique in a Python dict; theorems that need this carry
a `Nodup` hypothesis. -/
abbrev ThetaDesc := List (String × DescEntry)

/-- Python slice `theta[a:b]` for `0 ≤ a ≤ b`: clamps at the end of the
list instead of failing. -/
def pySlice (theta : List ℚ) (a b : ℕ) : List ℚ :=
  (theta.drop a).take (b - a)

/-- The `params` dictionary as built by `CompositeModel.__init__`:
`{'tage': tage, 'zmet': zmet, 'dust_curve': dust_curve}`. -/
def initParams (tage zmet : List ℚ) (dust_curve : PVal) : Store :=
  [("tage", PVal.arr tage), ("zmet", PVal.arr zmet), ("dust_curve", dust_curve)]

/-- `CompositeModel.set_parameters(theta)`: sets `params['imf_type'] = 2`
and then, for each descriptor entry `p`, stores
`params[p] = np.array(theta[i0 : i0 + N])`.  The existing dictionary is
updated in place, never cleared. -/
def set_parameters (desc : ThetaDesc) (theta : List ℚ) (params : Store) : Store :=
  let params1 : Store := ("imf_type", PVal.int 2) :: params
  desc.foldl
    (fun s pe => (pe.1, PVal.arr (pySlice theta pe.2.i0 (pe.2.i0 + pe.2.N))) :: s)
    params1

/-! ### Lookup lemmas for `set_parameters` -/

lemma lookup_setp_fold_not_mem (theta : List ℚ) (key : String) :
    ∀ (desc : ThetaDesc) (s : Store), key ∉ desc.map Prod.fst →
      (desc.foldl
        (fun s pe => (pe.1, PVal.arr (pySlice theta pe.2.i0 (pe.2.i0 + pe.2.N))) :: s)
        s).lookup key = s.lookup key := by
  intro desc
  induction desc with
  | nil => intro s _; rfl
  | cons hd tl ih =>
      intro s hkey
      simp only [List.map_cons, List.mem_cons, not_or] at hkey
      rw [List.foldl_cons, ih _ (by exact hkey.2)]
      simp [List.lookup, show (key == hd.1) = false from beq_eq_false_iff_ne.mpr hkey.1]

lemma lookup_setp_fold_mem (theta : List ℚ) (p : String) (e : DescEntry) :
    ∀ (desc : ThetaDesc) (s : Store), (desc.map Prod.fst).Nodup → (p, e) ∈ desc →
      (desc.foldl
        (fun s pe => (pe.1, PVal.arr (pySlice theta pe.2.i0 (pe.2.i0 + pe.2.N))) :: s)
        s).lookup p = some (PVal.arr (pySlice theta e.i0 (e.i0 + e.N))) := by
  intro desc
  induction desc with
  | nil => intro s _ h; cases h
  | cons hd tl ih =>
      intro s hnd hmem
      simp only [List.map_cons, List.nodup_cons] at hnd
      rcases List.mem_cons.mp hmem with heq | htl
      · subst heq
        rw [List.foldl_cons,
            lookup_setp_fold_not_mem theta p tl _ (by simpa using hnd.1)]
        simp [List.lookup]
      · rw [List.foldl_cons]
        exact ih _ hnd.2 htl

/-- `set_parameters` stores, for a parameter `p` in the descriptor, exactly
the slice `theta[i0 : i0+N]`. -/
lemma lookup_set_parameters_mem (desc : ThetaDesc) (theta : List ℚ) (params : Store)
    (p : String) (e : DescEntry)
    (hnd : (desc.map Prod.fst).Nodup) (hmem : (p, e) ∈ desc) :
    (set_parameters desc theta params).lookup p
      = some (PVal.arr (pySlice theta e.i0 (e.i0 + e.N))) :=
  lookup_setp_fold_mem theta p e desc _ hnd hmem

/-- `set_parameters` does not touch keys outside the descriptor other than
`imf_type`. -/
lemma lookup_set_parameters_not_mem (desc : ThetaDesc) (theta : List ℚ) (params : Store)
    (key : String) (hkey : key ∉ desc.map Prod.fst) (himf : key ≠ "imf_type") :
    (set_parameters desc theta params).lookup key = params.lookup key := by
  unfold set_parameters
  rw [lookup_setp_fold_not_mem theta key desc _ hkey]
  simp [List.lookup, show (key == "imf_type") = false from beq_eq_false_iff_ne.mpr himf]

/-- **C1.** For every descriptor `D` and theta vector whose length is the sum
of the descriptor lengths, after `set_parameters(theta)` the stored array
`params[p]` equals the slice `theta[i0 : i0+N]` element-wise for every
parameter `p` of the descriptor. -/
theorem set_parameters_slices (desc : ThetaDesc) (theta : List ℚ) (params : Store)
    (p : String) (e : DescEntry)
    (hlen : theta.length = (desc.map (fun pe => pe.2.N)).sum)
    (hnd : (desc.map Prod.fst).Nodup)
    (hmem : (p, e) ∈ desc) :
    (set_parameters desc theta params).lookup p
      = some (PVal.arr (pySlice theta e.i0 (e.i0 + e.N))) :=
  lookup_set_parameters_mem desc theta params p e hnd hmem

/-- Witness for C1 at a concrete two-parameter descriptor. -/
theorem set_parameters_slices_witness :
    (set_parameters [("mass", ⟨0, 2⟩), ("dust", ⟨2, 1⟩)] [1, 2, 3]
        (initParams [1] [-1/2] (PVal.rat 0))).lookup "mass"
      = some (PVal.arr [1, 2]) := by
  have h := set_parameters_slices [("mass", ⟨0, 2⟩), ("dust", ⟨2, 1⟩)] [1, 2, 3]
    (initParams [1] [-1/2] (PVal.rat 0)) "mass" ⟨0, 2⟩
    (by decide) (by decide) (by decide)
  simpa [pySlice] using h

/-- **C7 (counterexample).** `set_parameters` with a theta of length 1
against a descriptor requiring length 2 does *not* fail: it silently
produces a store whose `mass` entry is the clamped slice `[1]`. -/
theorem set_parameters_no_shape_error :
    (set_parameters [("mass", ⟨0, 2⟩)] [1]
        (initParams [1] [-1/2] (PVal.rat 0))).lookup "mass"
      = some (PVal.arr [1]) := by
  decide

/-- **C7 (amended).** `set_parameters` performs no shape validation at all:
for *every* theta (matching length or not) it succeeds, storing for each
descriptor parameter the clamped slice `theta[i0 : i0+N]`, whose length is
`min N (len theta - i0)` rather than necessarily `N`. -/
theorem set_parameters_clamps (desc : ThetaDesc) (theta : List ℚ) (params : Store)
    (p : String) (e : DescEntry)
    (hnd : (desc.map Prod.fst).Nodup) (hmem : (p, e) ∈ desc) :
    (set_parameters desc theta params).lookup p
        = some (PVal.arr (pySlice theta e.i0 (e.i0 + e.N)))
      ∧ (pySlice theta e.i0 (e.i0 + e.N)).length = min e.N (theta.length - e.i0) := by
  refine ⟨lookup_set_parameters_mem desc theta params p e hnd hmem, ?_⟩
  simp [pySlice]

/-- Witness for the amended C7: a too-short theta yields a truncated stored
array of length `min 2 1 = 1`. -/
theorem set_parameters_clamps_witness :
    (set_parameters [("mass", ⟨0, 2⟩)] [5]
        (initParams [1] [-1/2] (PVal.rat 0))).lookup "mass"
        = some (PVal.arr [5])
      ∧ (1 : ℕ) = min 2 1 := by
  have h := set_parameters_clamps [("mass", ⟨0, 2⟩)] [5]
    (initParams [1] [-1/2] (PVal.rat 0)) "mass" ⟨0, 2⟩ (by decide) (by decide)
  exact ⟨by simpa [pySlice] using h.1, by simpa [pySlice] using h.2⟩

/-- **C10.** Any number of `set_parameters` calls leave every `params` entry
whose key is neither a descriptor key nor `imf_type` unchanged; in
particular, instantiating `params` with the constructor's store, the
`tage`, `zmet` and `dust_curve` entries keep their construction values. -/
theorem set_parameters_frame (desc : ThetaDesc) (thetas : List (List ℚ))
    (params : Store) (key : String)
    (hkey : key ∉ desc.map Prod.fst) (himf : key ≠ "imf_type") :
    (thetas.foldl (fun s theta => set_parameters desc theta s) params).lookup key
      = params.lookup key := by
  induction thetas generalizing params with
  | nil => rfl
  | cons hd tl ih =>
      rw [List.foldl_cons, ih (set_parameters desc hd params),
          lookup_set_parameters_not_mem desc hd params key hkey himf]

/-- Witness for C10: after two `set_parameters` calls on a `mass`-only
descriptor, `tage` still holds its construction value. -/
theorem set_parameters_frame_witness :
    ([[3], [4]].foldl (fun s theta => set_parameters [("mass", ⟨0, 1⟩)] theta s)
        (initParams [1] [-1/2] (PVal.rat 0))).lookup "tage"
      = some (PVal.arr [1]) := by
  have h := set_parameters_frame [("mass", ⟨0, 1⟩)] [[3], [4]]
    (initParams [1] [-1/2] (PVal.rat 0)) "tage" (by decide) (by decide)
  simpa [initParams, List.lookup] using h

/-! ### numpy-style array operations used by `lnprob_grad`

Arrays are `List ℚ` (1-D) and `List (List ℚ)` (2-D, row = component).
Shape errors surface as `none`, lifted below to the `ValueError` numpy
raises.  numpy inputs are rectangular, so the row-wise treatment of 2-D
broadcasting below coincides with numpy's. -/

/-- Elementwise binary operation on two 1-D arrays with numpy
broadcasting: equal lengths act pointwise and a length-1 operand is
broadcast; any other combination is a shape error. -/
def bcast1 (f : ℚ → ℚ → ℚ) : List ℚ → List ℚ → Option (List ℚ) :=
  fun a b =>
    if a.length = b.length then some (List.zipWith f a b)
    else
      match a, b with
      | a, [y] => some (a.map (fun x => f x y))
      | [x], b => some (b.map (fun y => f x y))
      | _, _ => none

/-- Row-wise action of an `Option`-valued operation, failing if any row
fails (shape errors in any row abort the whole numpy operation). -/
def mapOption {α β : Type} (g : α → Option β) : List α → Option (List β)
  | [] => some []
  | a :: as => do
      let b ← g a
      let bs ← mapOption g as
      some (b :: bs)

/-- `m * v` for 2-D `m` and 1-D `v`: numpy aligns `v` with the *trailing*
(column) axis of `m` and broadcasts. -/
def mulMatVec (m : List (List ℚ)) (v : List ℚ) : Option (List (List ℚ)) :=
  mapOption (fun r => bcast1 (· * ·) r v) m

/-- `v[None, :] * m`: multiply each row of `m` elementwise by `v`. -/
def mulVecRows (v : List ℚ) (m : List (List ℚ)) : Option (List (List ℚ)) :=
  mapOption (fun r => bcast1 (· * ·) v r) m

/-- `np.sum(m, axis=0)`: column sums of a rectangular 2-D array. -/
def sumAxis0 : List (List ℚ) → List ℚ
  | [] => []
  | [r] => r
  | r :: rest => List.zipWith (· + ·) r (sumAxis0 rest)

/-- `np.sum(m, axis=1)`: row sums. -/
def sumAxis1 (m : List (List ℚ)) : List ℚ :=
  m.map (fun r => r.sum)

/-- `m[:, mask]`: keep the columns at which the boolean mask is true.
numpy requires the mask length to equal the column count. -/
def maskCols (m : List (List ℚ)) (mask : List Bool) : Option (List (List ℚ)) :=
  mapOption (fun r =>
    if r.length = mask.length then
      some ((r.zip mask).filterMap (fun xb => if xb.2 then some xb.1 else none))
    else none) m

/-- Lines 46 and 47 of `newmodel.py`: `(a * mass).sum(axis = 0)`. -/
def weightedSum (m : List (List ℚ)) (mass : List ℚ) : Option (List ℚ) :=
  (mulMatVec m mass).map sumAxis0

/-- The spec's mass weighting, written from the spec's words:
`predicted = Σ_c mass[c] * component[c]`, a linear combination along the
*component* axis.  Kept separate from `weightedSum` (the code's line) so
the two can be compared. -/
def massWeightedSumSpec (mass : List ℚ) (comp : List (List ℚ)) : List ℚ :=
  sumAxis0 (List.zipWith (fun mc row => row.map (fun x => mc * x)) mass comp)

/-! ### Python exceptions raised by `lnprob_grad` -/

inductive PyErr where
  | keyError : String → PyErr
  | valueError : String → PyErr
  | nameError : String → PyErr
deriving DecidableEq, Repr

/-- Message of the `ValueError` on line 42 (the spec's
`UnsupportedParameterSet`). -/
def unsupportedMsg : String :=
  "You are attempting to use gradients for parameters where they are not calculated!!!"

/-- Message of the `ValueError` on line 62 (the spec's `NotImplemented`
for the jitter gradient). -/
def jitterMsg : String := "gradients in jitter term not written"

/-- Message of the `ValueError` numpy raises on a shape mismatch. -/
def bcastMsg : String := "operands could not be broadcast together"

/-- Lift a numpy shape failure to the `ValueError` numpy raises. -/
def npOp {α : Type} : Option α → Except PyErr α
  | some x => Except.ok x
  | none => Except.error (PyErr.valueError bcastMsg)

/-! ### The gradient computation -/

/-- The observation record `self.obs` (supplied externally, read-only
here).  `filters` only matters through `is not None` and the number of
photometric bands, so it is kept as a count. -/
structure Obs where
  wavelength : Option (List ℚ)
  spectrum : List ℚ
  unc : List ℚ
  mask : List Bool
  filters : Option ℕ
  mags : List ℚ
  mags_unc : List ℚ

/-- A local gradient dictionary (`gradp_spec`, `gradp_phot`,
`gradp_jitter`): parameter name to contribution array. -/
abbrev GradDict := List (String × List ℚ)

/-- `params['jitter']` used as a scalar in arithmetic.  Inside this
program the key is never present (see `lnprob_grad_keyerror_jitter`), so
only the lookup failure is ever exercised; the conversion is kept for
the counterfactual store that does hold a numeric jitter. -/
def jitterOfPVal : PVal → Except PyErr ℚ
  | PVal.rat x => Except.ok x
  | PVal.int n => Except.ok (n : ℚ)
  | PVal.arr _ => Except.error (PyErr.valueError "unsupported operand type")

/-- Lines 52-57 of `newmodel.py`, the spectroscopy block given the jitter
scalar read from `params`:
`total_var_spec = (unc + jitter * spectrum)**2`,
`spec_part = -(spec - spectrum) / total_var_spec`, and
`gradp_spec['mass'] = (spec_part[None,:] * comp_spec)[:, mask].sum(axis=1)`. -/
def specTerm (jitterP : ℚ) (spec spectrum unc : List ℚ) (mask : List Bool)
    (comp_spec : List (List ℚ)) : Option (List ℚ) := do
  let tv1 ← bcast1 (· + ·) unc (spectrum.map (fun s => jitterP * s))
  let total_var_spec := tv1.map (fun x => x ^ 2)
  let d ← bcast1 (· - ·) spec spectrum
  let q ← bcast1 (· / ·) d total_var_spec
  let spec_part := q.map (fun x => -x)
  let prods ← mulVecRows spec_part comp_spec
  let masked ← maskCols prods mask
  some (sumAxis1 masked)

/-- Lines 67-71 of `newmodel.py`, the photometry block:
`phot_var = (10**(-0.4*mags) * mags_unc / 1.086)**2`,
`phot_part = -np.atleast_1d((phot - 10**(-0.4*mags)) / phot_var)` and
`gradp_phot['mass'] = (phot_part[None,:] * comp_phot).sum(axis=1)`.
`10 ** x` is the abstract `tenPow`; the source evaluates
`10**(-0.4*mags)` twice, which is pure, so it is shared here;
`np.atleast_1d` is the identity on arrays. -/
def photTerm (tenPow : ℚ → ℚ) (phot mags mags_unc : List ℚ)
    (comp_phot : List (List ℚ)) : Option (List ℚ) := do
  let flux := mags.map (fun m => tenPow (-0.4 * m))
  let pv1 ← bcast1 (· * ·) flux mags_unc
  let phot_var := pv1.map (fun x => (x / 1.086) ^ 2)
  let d ← bcast1 (· - ·) phot flux
  let q ← bcast1 (· / ·) d phot_var
  let phot_part := q.map (fun x => -x)
  let prods ← mulVecRows phot_part comp_phot
  some (sumAxis1 prods)

/-- numpy in-place slice update `sl += w` (output must keep the length
of `sl`: equal lengths act pointwise, a length-1 `w` is broadcast). -/
def addToSlice (sl w : List ℚ) : Option (List ℚ) :=
  if w.length = sl.length then some (List.zipWith (· + ·) sl w)
  else
    match w with
    | [y] => some (sl.map (fun x => x + y))
    | _ => none

/-- `g[a:b] += w` on a 1-D array: update the clamped slice in place. -/
def pySliceAdd (g : List ℚ) (a b : ℕ) (w : List ℚ) : Option (List ℚ) :=
  let sl := (g.drop a).take (b - a)
  (addToSlice sl w).map (fun ns => g.take a ++ ns ++ g.drop (a + sl.length))

/-- Lines 78-80 of `newmodel.py`: for every descriptor parameter `p` and
every gradient dictionary `g` in `all_grads`,
`gradp[start:stop] += g.get(p, 0)` (an absent key contributes the scalar
`0`, i.e. leaves `gradp` unchanged). -/
def accumGrads (desc : ThetaDesc) (all_grads : List GradDict) (g0 : List ℚ) :
    Except PyErr (List ℚ) :=
  desc.foldlM (fun g pe =>
    all_grads.foldlM (fun g gd =>
      match gd.lookup pe.1 with
      | none => Except.ok g
      | some w => npOp (pySliceAdd g pe.2.i0 (pe.2.i0 + pe.2.N) w)) g) g0

/-- Lines 40-42 of `newmodel.py`:
`status = (len(theta) == theta_desc['mass']['N']) and (theta_desc.keys() == ['mass'])`,
raising the line-42 `ValueError` when the status is false.  Looking up
`theta_desc['mass']` raises `KeyError` when the key is absent.  The
source predates Python 3, where `keys()` is a plain list, so the key
comparison holds exactly when the key list is `["mass"]`. -/
def lnprob_grad_check (desc : ThetaDesc) (theta : List ℚ) : Except PyErr Unit := do
  let massEntry ← match desc.lookup "mass" with
    | none => Except.error (PyErr.keyError "mass")
    | some e => Except.ok e
  let status := (theta.length == massEntry.N) && (desc.map Prod.fst == ["mass"])
  if !status then
    Except.error (PyErr.valueError unsupportedMsg)
  else
    Except.ok ()

/-- Lines 66-85 of `newmodel.py`: the photometry block, the
`all_grads = [gradp_spec, gradp_phot, gradp_jitter]` line (which raises
`NameError` for a local the spectroscopy branch never bound), the prior
gradient seed and the accumulation loop.  `specLocals` carries the
bindings (or absence) of `gradp_spec` and `gradp_jitter`; `phot` is the
line-47 prediction. -/
def lnprob_grad_finish (desc : ThetaDesc) (theta : List ℚ) (obs : Obs)
    (tenPow : ℚ → ℚ) (lnp_prior_grad : List ℚ → List ℚ)
    (comp_phot : List (List ℚ)) (phot : List ℚ)
    (specLocals : Option GradDict × Option GradDict) : Except PyErr (List ℚ) := do
  -- lines 66-71: gradp_phot = {} is bound unconditionally, filled only
  -- when filters are present
  let gradp_phot : GradDict ←
    match obs.filters with
    | none => Except.ok []
    | some _ => do
        let gp ← npOp (photTerm tenPow phot obs.mags obs.mags_unc comp_phot)
        Except.ok [("mass", gp)]
  -- line 74: all_grads = [gradp_spec, gradp_phot, gradp_jitter];
  -- an unbound gradp_spec raises NameError here
  let gradp_spec ← match specLocals.1 with
    | none => Except.error (PyErr.nameError "gradp_spec")
    | some d => Except.ok d
  let gradp_jitter ← match specLocals.2 with
    | none => Except.error (PyErr.nameError "gradp_jitter")
    | some d => Except.ok d
  let all_grads := [gradp_spec, gradp_phot, gradp_jitter]
  -- line 77: gradp = self.lnp_prior_grad(theta)
  let gradp := lnp_prior_grad theta
  -- lines 78-80
  accumGrads desc all_grads gradp

/-- Lines 44-85 of `newmodel.py`, after the status check.  The synthesis
engine is external, so its outputs `comp_spec`, `comp_phot` are inputs
here, as are the base-class hook `lnp_prior_grad` and the observation.
`jitter` is the attribute `self.jitter` (`0` after `__init__`);
`params0` is `self.params` before the call (after `__init__`:
`initParams tage zmet dust_curve`). -/
def lnprob_grad_body (desc : ThetaDesc) (theta : List ℚ) (obs : Obs) (jitter : ℚ)
    (tenPow : ℚ → ℚ) (lnp_prior_grad : List ℚ → List ℚ)
    (comp_spec comp_phot : List (List ℚ)) (params0 : Store) :
    Except PyErr (List ℚ) := do
  -- line 44: self.set_parameters(theta)
  let params := set_parameters desc theta params0
  -- line 46: spec = (comp_spec * self.params['mass']).sum(axis = 0)
  let mass ← match params.lookup "mass" with
    | some (PVal.arr a) => Except.ok a
    | some _ => Except.error (PyErr.valueError "unsupported operand type")
    | none => Except.error (PyErr.keyError "mass")
  let spec ← npOp (weightedSum comp_spec mass)
  -- line 47: phot = (comp_spec * self.params['mass']).sum(axis = 0)
  -- (the source multiplies comp_spec again, not comp_phot)
  let phot ← npOp (weightedSum comp_spec mass)
  -- lines 50-63: the spectroscopy block binds gradp_spec / gradp_jitter
  -- only when a wavelength grid is present
  let specLocals : Option GradDict × Option GradDict ←
    match obs.wavelength with
    | none => Except.ok (none, none)
    | some _wave => do
        -- line 52 reads self.params['jitter']: KeyError when absent
        let jv ← match params.lookup "jitter" with
          | none => Except.error (PyErr.keyError "jitter")
          | some v => Except.ok v
        let jitterP ← jitterOfPVal jv
        let gs ← npOp (specTerm jitterP spec obs.spectrum obs.unc obs.mask comp_spec)
        -- lines 60-62: gradp_jitter = {}; if self.jitter is not 0: raise
        if jitter ≠ 0 then
          Except.error (PyErr.valueError jitterMsg)
        else
          Except.ok (some [("mass", gs)], some ([] : GradDict))
  -- lines 66-85
  lnprob_grad_finish desc theta obs tenPow lnp_prior_grad comp_phot phot specLocals

/-- `CompositeModel.lnprob_grad(theta)` in full: the status check of
lines 40-42 followed by the body. -/
def lnprob_grad (desc : ThetaDesc) (theta : List ℚ) (obs : Obs) (jitter : ℚ)
    (tenPow : ℚ → ℚ) (lnp_prior_grad : List ℚ → List ℚ)
    (comp_spec comp_phot : List (List ℚ)) (params0 : Store) :
    Except PyErr (List ℚ) := do
  lnprob_grad_check desc theta
  lnprob_grad_body desc theta obs jitter tenPow lnp_prior_grad
    comp_spec comp_phot params0

/-! ### Concrete fixtures for evaluation theorems -/

/-- A one-parameter descriptor `{'mass': {'i0': 0, 'N': 1}}`. -/
def descMass : ThetaDesc := [("mass", ⟨0, 1⟩)]

/-- The constructor's parameter store with its default arguments
(`tage = [1.0]`, `zmet = [-0.5]`, opaque `dust_curve`). -/
def paramsInit : Store := initParams [1] [-1/2] (PVal.rat 0)

/-- A concrete stand-in for `x ↦ 10 ** x` (its values are irrelevant to
the control-flow facts proved on it). -/
def tenPowC : ℚ → ℚ := fun _ => 1

/-- The base-class prior-gradient hook with no prior gradients defined:
a zero vector of the length of theta. -/
def priorZero : List ℚ → List ℚ := fun t => t.map (fun _ => 0)

/-- An observation with a wavelength grid and no filters. -/
def obsSpecOnly : Obs :=
  { wavelength := some [5000], spectrum := [3], unc := [1], mask := [true],
    filters := none, mags := [], mags_unc := [] }

/-- An observation with neither wavelength grid nor filters. -/
def obsNone : Obs :=
  { wavelength := none, spectrum := [3], unc := [1], mask := [true],
    filters := none, mags := [], mags_unc := [] }

/-- An observation with filters but no wavelength grid. -/
def obsPhotOnly : Obs :=
  { wavelength := none, spectrum := [3], unc := [1], mask := [true],
    filters := some 1, mags := [1], mags_unc := [1/10] }

/-! ### Code-bug evaluations -/

/-- **C2 (code bug, evaluation).** Line 46/47 computes both predictions as
`(comp_spec * mass).sum(axis=0)`, which (i) broadcasts `mass` along the
*wavelength* axis, not the component axis, (ii) ignores `comp_phot`
entirely for the photometry prediction, and (iii) is a shape error
whenever `len(mass)` is neither the number of wavelength points nor 1.
At `mass = [1, 2]`, `comp_spec = [[0,1],[1,0]]` the code yields `[1, 2]`
while the spec's component-axis weighting yields `[2, 1]`; for
`comp_phot = [[1,1],[0,0]]` the claimed photometry is `[1, 1]`, which the
code cannot produce since it never reads `comp_phot`; and a 2-component,
3-wavelength `comp_spec` is rejected outright. -/
theorem lnprob_grad_mass_weighting_bug :
    weightedSum [[0, 1], [1, 0]] [1, 2] = some [1, 2]
      ∧ massWeightedSumSpec [1, 2] [[0, 1], [1, 0]] = [2, 1]
      ∧ massWeightedSumSpec [1, 2] [[1, 1], [0, 0]] = [1, 1]
      ∧ weightedSum [[1, 1, 1], [2, 2, 2]] [1, 2] = none := by
  refine ⟨?_, ?_, ?_, by rfl⟩ <;>
    norm_num [weightedSum, mulMatVec, massWeightedSumSpec, mapOption, bcast1, sumAxis0]

/-- **C3 (code bug, evaluation).** With a wavelength grid present, the
spectroscopy block's first line reads `self.params['jitter']`, a key the
store never contains (`__init__` seeds only `tage`, `zmet`, `dust_curve`
and `set_parameters` adds only `imf_type` and the descriptor keys, here
exactly `mass`), so `lnprob_grad` raises `KeyError('jitter')` before any
variance or masked sum is computed. -/
theorem lnprob_grad_keyerror_jitter :
    lnprob_grad descMass [2] obsSpecOnly 0 tenPowC priorZero [[1]] [[1]] paramsInit
      = Except.error (PyErr.keyError "jitter") := by
  rfl

/-- **C6 (code bug, evaluation).** With neither wavelength grid nor
filters, the names `gradp_spec` and `gradp_jitter` are never bound, so
line 74 (`all_grads = [gradp_spec, gradp_phot, gradp_jitter]`) raises
`NameError` instead of returning the prior-only gradient
(`priorZero [2] = [0]` here). -/
theorem lnprob_grad_nameerror_no_data :
    lnprob_grad descMass [2] obsNone 0 tenPowC priorZero [[1]] [[1]] paramsInit
      = Except.error (PyErr.nameError "gradp_spec") := by
  rfl

/-- **C8 (code bug, evaluation).** With `self.jitter = 1` configured and a
wavelength grid present, the call fails with `KeyError('jitter')` at the
variance line (52) — it never reaches the `NotImplemented`-style
`ValueError('gradients in jitter term not written')` of line 62. -/
theorem lnprob_grad_jitter_config_keyerror :
    lnprob_grad descMass [2] obsSpecOnly 1 tenPowC priorZero [[1]] [[1]] paramsInit
        = Except.error (PyErr.keyError "jitter")
      ∧ PyErr.keyError "jitter" ≠ PyErr.valueError jitterMsg := by
  exact ⟨rfl, by simp⟩

/-- **C9 (code bug, evaluation).** On valid inputs (descriptor exactly
`mass`, matching theta length, length-preserving prior gradient)
`lnprob_grad` never returns a vector at all: with a wavelength grid it
raises `KeyError('jitter')`, and without one it raises `NameError`
(whether or not filters are present), so no returned gradient exists to
satisfy the shape invariant. -/
theorem lnprob_grad_never_returns :
    lnprob_grad descMass [5] obsSpecOnly 0 tenPowC priorZero [[2]] [[3]] paramsInit
        = Except.error (PyErr.keyError "jitter")
      ∧ lnprob_grad descMass [5] obsPhotOnly 0 tenPowC priorZero [[2]] [[3]] paramsInit
        = Except.error (PyErr.nameError "gradp_spec")
      ∧ lnprob_grad descMass [5] obsNone 0 tenPowC priorZero [[2]] [[3]] paramsInit
        = Except.error (PyErr.nameError "gradp_spec") := by
  refine ⟨by rfl, by rfl, by rfl⟩

/-- **C5 (counterexample).** With a descriptor that lacks `mass`
(`{'dust': {'i0': 0, 'N': 1}}`), line 40's `theta_desc['mass']` raises
`KeyError('mass')` — not the `UnsupportedParameterSet` `ValueError` the
claim promises for every non-`{mass}` descriptor. -/
theorem lnprob_grad_missing_mass_keyerror :
    lnprob_grad [("dust", ⟨0, 1⟩)] [1] obsNone 0 tenPowC priorZero [[1]] [[1]] paramsInit
        = Except.error (PyErr.keyError "mass")
      ∧ PyErr.keyError "mass" ≠ PyErr.valueError unsupportedMsg := by
  exact ⟨rfl, by simp⟩

/-! ### The status check raises the line-42 error and nothing else does -/

lemma npOp_ne_unsupported {α : Type} (o : Option α) :
    npOp o ≠ Except.error (PyErr.valueError unsupportedMsg) := by
  cases o <;> simp [npOp, bcastMsg, unsupportedMsg]

lemma foldlM_ne_err {α β : Type} (F : β → α → Except PyErr β) (bad : PyErr)
    (h : ∀ b a, F b a ≠ Except.error bad) :
    ∀ (l : List α) (b : β), l.foldlM F b ≠ Except.error bad := by
  intro l
  induction l with
  | nil => intro b; simp [List.foldlM, pure, Except.pure]
  | cons a l ih =>
      intro b hc
      rw [List.foldlM_cons] at hc
      cases hF : F b a with
      | error e =>
          rw [hF] at hc
          simp only [bind, Except.bind] at hc
          injection hc with he
          subst he
          exact h b a hF
      | ok b' =>
          rw [hF] at hc
          simp only [bind, Except.bind] at hc
          exact ih b' hc

lemma accumGrads_ne_unsupported (desc : ThetaDesc) (gs : List GradDict) (g0 : List ℚ) :
    accumGrads desc gs g0 ≠ Except.error (PyErr.valueError unsupportedMsg) := by
  unfold accumGrads
  refine foldlM_ne_err _ _ ?_ desc g0
  intro g pe
  refine foldlM_ne_err _ _ ?_ gs g
  intro g' gd
  cases gd.lookup pe.1 with
  | none => simp
  | some w => exact npOp_ne_unsupported _

/-- Whatever its inputs, `lnprob_grad_finish` never raises the line-42
`ValueError`: its failures are broadcast errors, `NameError`s or
accumulation broadcast errors. -/
lemma lnprob_grad_finish_ne_unsupported (desc : ThetaDesc) (theta : List ℚ) (obs : Obs)
    (tenPow : ℚ → ℚ) (prior : List ℚ → List ℚ) (comp_phot : List (List ℚ))
    (phot : List ℚ) (specLocals : Option GradDict × Option GradDict) :
    lnprob_grad_finish desc theta obs tenPow prior comp_phot phot specLocals
      ≠ Except.error (PyErr.valueError unsupportedMsg) := by
  intro h
  unfold lnprob_grad_finish at h
  obtain ⟨s1, s2⟩ := specLocals
  cases hf : obs.filters with
  | none =>
    rw [hf] at h
    simp only [bind, Except.bind] at h
    cases s1 with
    | none => simp at h
    | some d1 =>
      cases s2 with
      | none => simp at h
      | some d2 =>
        simp only [] at h
        exact accumGrads_ne_unsupported _ _ _ h
  | some nf =>
    rw [hf] at h
    cases hph : photTerm tenPow phot obs.mags obs.mags_unc comp_phot with
    | none => rw [hph] at h; simp [npOp, bind, Except.bind, unsupportedMsg, bcastMsg] at h
    | some gp =>
      rw [hph] at h
      simp only [npOp, bind, Except.bind] at h
      cases s1 with
      | none => simp at h
      | some d1 =>
        cases s2 with
        | none => simp at h
        | some d2 =>
          simp only [] at h
          exact accumGrads_ne_unsupported _ _ _ h

/-- Whatever the inputs, the body of `lnprob_grad` (everything after the
line-40 status check) never raises the line-42 `ValueError`: its own
failures are `KeyError`s, `NameError`s, numpy broadcast `ValueError`s or
the line-62 jitter `ValueError`, all distinct from it. -/
lemma lnprob_grad_body_ne_unsupported (desc : ThetaDesc) (theta : List ℚ) (obs : Obs)
    (jitter : ℚ) (tenPow : ℚ → ℚ) (prior : List ℚ → List ℚ)
    (comp_spec comp_phot : List (List ℚ)) (params0 : Store) :
    lnprob_grad_body desc theta obs jitter tenPow prior comp_spec comp_phot params0
      ≠ Except.error (PyErr.valueError unsupportedMsg) := by
  intro h
  unfold lnprob_grad_body at h
  simp only [bind, Except.bind] at h
  cases hm : (set_parameters desc theta params0).lookup "mass" with
  | none => rw [hm] at h; simp [bind, Except.bind, unsupportedMsg] at h
  | some v =>
    rw [hm] at h
    cases v with
    | int n => simp [bind, Except.bind, unsupportedMsg] at h
    | rat x => simp [bind, Except.bind, unsupportedMsg] at h
    | arr mass =>
      simp only [bind, Except.bind] at h
      cases hw : weightedSum comp_spec mass with
      | none => rw [hw] at h; simp [npOp, bind, Except.bind, unsupportedMsg, bcastMsg] at h
      | some spec =>
        rw [hw] at h
        simp only [npOp, bind, Except.bind] at h
        cases hwl : obs.wavelength with
        | some wave =>
          rw [hwl] at h
          cases hj : (set_parameters desc theta params0).lookup "jitter" with
          | none => rw [hj] at h; simp [bind, Except.bind, unsupportedMsg] at h
          | some jv =>
            rw [hj] at h
            cases jv with
            | arr a => simp [jitterOfPVal, bind, Except.bind, unsupportedMsg] at h
            | int n =>
              simp only [jitterOfPVal, bind, Except.bind] at h
              cases hs : specTerm (↑n) spec obs.spectrum obs.unc obs.mask comp_spec with
              | none => rw [hs] at h; simp [npOp, bind, Except.bind, unsupportedMsg, bcastMsg] at h
              | some gs =>
                rw [hs] at h
                simp only [npOp, bind, Except.bind] at h
                by_cases hjz : jitter ≠ 0
                · rw [if_pos hjz] at h
                  simp [bind, Except.bind, unsupportedMsg, jitterMsg] at h
                · rw [if_neg hjz] at h
                  try simp only [bind, Except.bind] at h
                  exact lnprob_grad_finish_ne_unsupported desc theta obs tenPow prior
                    comp_phot spec (some [("mass", gs)], some []) h
            | rat x =>
              simp only [jitterOfPVal, bind, Except.bind] at h
              cases hs : specTerm x spec obs.spectrum obs.unc obs.mask comp_spec with
              | none => rw [hs] at h; simp [npOp, bind, Except.bind, unsupportedMsg, bcastMsg] at h
              | some gs =>
                rw [hs] at h
                simp only [npOp, bind, Except.bind] at h
                by_cases hjz : jitter ≠ 0
                · rw [if_pos hjz] at h
                  simp [bind, Except.bind, unsupportedMsg, jitterMsg] at h
                · rw [if_neg hjz] at h
                  try simp only [bind, Except.bind] at h
                  exact lnprob_grad_finish_ne_unsupported desc theta obs tenPow prior
                    comp_phot spec (some [("mass", gs)], some []) h
        | none =>
          rw [hwl] at h
          try simp only [bind, Except.bind] at h
          exact lnprob_grad_finish_ne_unsupported desc theta obs tenPow prior
            comp_phot spec (none, none) h

/-- **C5 (amended).** The line-42 `ValueError` (the spec's
`UnsupportedParameterSet`) is raised exactly when `mass` is a descriptor
key but either the key list is not exactly `['mass']` or `len(theta)`
differs from the mass length; a descriptor *without* `mass` raises
`KeyError('mass')` instead; and with descriptor exactly `{'mass'}` and a
matching theta length this error is never raised (any later failure is a
different exception). -/
theorem lnprob_grad_unsupported_iff (desc : ThetaDesc) (theta : List ℚ) (obs : Obs)
    (jitter : ℚ) (tenPow : ℚ → ℚ) (prior : List ℚ → List ℚ)
    (comp_spec comp_phot : List (List ℚ)) (params0 : Store) :
    (∀ e, desc.lookup "mass" = some e →
        (desc.map Prod.fst ≠ ["mass"] ∨ theta.length ≠ e.N) →
        lnprob_grad desc theta obs jitter tenPow prior comp_spec comp_phot params0
          = Except.error (PyErr.valueError unsupportedMsg))
    ∧ (desc.lookup "mass" = none →
        lnprob_grad desc theta obs jitter tenPow prior comp_spec comp_phot params0
          = Except.error (PyErr.keyError "mass"))
    ∧ (∀ e, desc.lookup "mass" = some e → desc.map Prod.fst = ["mass"] →
        theta.length = e.N →
        lnprob_grad desc theta obs jitter tenPow prior comp_spec comp_phot params0
          ≠ Except.error (PyErr.valueError unsupportedMsg)) := by
  refine ⟨?_, ?_, ?_⟩
  · intro e hm hbad
    have hst : ((theta.length == e.N) && (desc.map Prod.fst == ["mass"])) = false := by
      rcases hbad with hk | hl
      · simp [beq_eq_false_iff_ne.mpr hk]
      · simp [beq_eq_false_iff_ne.mpr hl]
    simp [lnprob_grad, lnprob_grad_check, hm, hst, bind, Except.bind]
  · intro hm
    simp [lnprob_grad, lnprob_grad_check, hm, bind, Except.bind]
  · intro e hm hk hl
    have hst : ((theta.length == e.N) && (desc.map Prod.fst == ["mass"])) = true := by
      simp [hk, hl]
    have hchk : lnprob_grad_check desc theta = Except.ok () := by
      simp [lnprob_grad_check, hm, hst, bind, Except.bind]
    simp only [lnprob_grad, hchk, bind, Except.bind]
    exact lnprob_grad_body_ne_unsupported _ _ _ _ _ _ _ _ _

/-- Witness for the amended C5 at concrete descriptors: a
`{'mass','dust'}` descriptor raises the line-42 error, a `{'dust'}`-only
descriptor raises `KeyError('mass')`, and the exact-`{'mass'}` descriptor
with matching theta never produces the line-42 error. -/
theorem lnprob_grad_unsupported_iff_witness :
    lnprob_grad [("mass", ⟨0, 2⟩), ("dust", ⟨2, 1⟩)] [1, 2] obsNone 0 tenPowC priorZero
        [[1]] [[1]] paramsInit
        = Except.error (PyErr.valueError unsupportedMsg)
      ∧ lnprob_grad [("dust", ⟨0, 1⟩)] [1] obsSpecOnly 0 tenPowC priorZero
        [[1]] [[1]] paramsInit
        = Except.error (PyErr.keyError "mass")
      ∧ lnprob_grad [("mass", ⟨0, 1⟩)] [1] obsNone 0 tenPowC priorZero
        [[1]] [[1]] paramsInit
        ≠ Except.error (PyErr.valueError unsupportedMsg) := by
  refine ⟨?_, ?_, ?_⟩
  · exact (lnprob_grad_unsupported_iff [("mass", ⟨0, 2⟩), ("dust", ⟨2, 1⟩)] [1, 2]
      obsNone 0 tenPowC priorZero [[1]] [[1]] paramsInit).1 ⟨0, 2⟩ (by rfl)
      (Or.inl (by decide))
  · exact (lnprob_grad_unsupported_iff [("dust", ⟨0, 1⟩)] [1]
      obsSpecOnly 0 tenPowC priorZero [[1]] [[1]] paramsInit).2.1 (by rfl)
  · exact (lnprob_grad_unsupported_iff [("mass", ⟨0, 1⟩)] [1]
      obsNone 0 tenPowC priorZero [[1]] [[1]] paramsInit).2.2 ⟨0, 1⟩ (by rfl)
      (by decide) (by decide)

/-! ### The photometry gradient term sums over all filters, unmasked -/

lemma bcast1_eq_zipWith (f : ℚ → ℚ → ℚ) (a b : List ℚ) (h : a.length = b.length) :
    bcast1 f a b = some (List.zipWith f a b) := by
  simp [bcast1, h]

lemma mapOption_eq_map {α β : Type} (g : α → Option β) (h' : α → β) :
    ∀ l : List α, (∀ x ∈ l, g x = some (h' x)) → mapOption g l = some (l.map h') := by
  intro l
  induction l with
  | nil => intro _; rfl
  | cons a as ih =>
      intro hl
      simp only [mapOption, hl a (List.mem_cons_self a as),
        ih (fun x hx => hl x (List.mem_cons_of_mem a hx))]
      rfl

/-- The claim's photometry gradient for one component row, written as an
index-wise sum over *every* filter `f` (no mask):
`Σ_f [-(predicted_f - flux_f) / variance_f] * component[c, f]` with
`flux = 10^(-0.4 mag)` and `variance = (flux * mag_unc / 1.086)^2`. -/
def photGradMassIdx (tenPow : ℚ → ℚ) (phot mags mags_unc row : List ℚ) : ℚ :=
  ∑ f ∈ Finset.range mags.length,
    (-((phot.getD f 0 - tenPow (-0.4 * mags.getD f 0))
        / ((tenPow (-0.4 * mags.getD f 0) * mags_unc.getD f 0 / 1.086) ^ 2)))
      * row.getD f 0

lemma photPart_row_sum (tenPow : ℚ → ℚ) :
    ∀ (mags phot mags_unc row : List ℚ),
      phot.length = mags.length → mags_unc.length = mags.length →
      row.length = mags.length →
      (List.zipWith (· * ·)
        (List.map (fun x => -x)
          (List.zipWith (· / ·)
            (List.zipWith (· - ·) phot (List.map (fun m => tenPow (-0.4 * m)) mags))
            (List.map (fun x => (x / 1.086) ^ 2)
              (List.zipWith (· * ·) (List.map (fun m => tenPow (-0.4 * m)) mags)
                mags_unc))))
        row).sum
      = photGradMassIdx tenPow phot mags mags_unc row := by
  intro mags
  induction mags with
  | nil =>
      intro phot mags_unc row hp hu hr
      rw [List.length_nil, List.length_eq_zero] at hp hu hr
      subst hp; subst hu; subst hr
      simp [photGradMassIdx]
  | cons m ms ih =>
      intro phot mags_unc row hp hu hr
      cases phot with
      | nil => simp at hp
      | cons p ps =>
        cases mags_unc with
        | nil => simp at hu
        | cons u us =>
          cases row with
          | nil => simp at hr
          | cons x xs =>
            simp only [List.map_cons, List.zipWith_cons_cons, List.sum_cons]
            rw [ih ps us xs (by simpa using hp) (by simpa using hu) (by simpa using hr)]
            simp only [photGradMassIdx, List.length_cons, Finset.sum_range_succ',
              List.getD_cons_succ, List.getD_cons_zero]
            ring

/-- **C4.** In `lnprob_grad`, when filters are present, observed
magnitudes are converted to flux `10^(-0.4 mag)`, the photometric
variance is `(flux * mag_unc / 1.086)^2`, and the mass-gradient
photometry contribution for each component row is the sum over **all**
filter indices — no mask is applied, unlike the spectroscopy term — of
`[-(predicted - flux)/variance] * component[c, f]`.  (`photTerm` is
exactly the block `lnprob_grad` runs in its filters-present branch.) -/
theorem photTerm_sums_all_filters (tenPow : ℚ → ℚ) (phot mags mags_unc : List ℚ)
    (comp_phot : List (List ℚ))
    (hp : phot.length = mags.length) (hu : mags_unc.length = mags.length)
    (hc : ∀ r ∈ comp_phot, r.length = mags.length) :
    photTerm tenPow phot mags mags_unc comp_phot
      = some (comp_phot.map (photGradMassIdx tenPow phot mags mags_unc)) := by
  simp only [photTerm]
  set flux := List.map (fun m => tenPow (-0.4 * m)) mags with hfluxdef
  have hfluxlen : flux.length = mags.length := by simp [hfluxdef]
  have e1 : bcast1 (· * ·) flux mags_unc = some (List.zipWith (· * ·) flux mags_unc) :=
    bcast1_eq_zipWith _ _ _ (by rw [hfluxlen, hu])
  rw [e1]
  simp only [Option.bind_eq_bind, Option.some_bind, Option.some_bind']
  set pv := List.map (fun x => (x / 1.086) ^ 2) (List.zipWith (· * ·) flux mags_unc)
    with hpvdef
  have hpvlen : pv.length = mags.length := by
    simp [hpvdef, hfluxlen, hu]
  have e2 : bcast1 (· - ·) phot flux = some (List.zipWith (· - ·) phot flux) :=
    bcast1_eq_zipWith _ _ _ (by rw [hp, hfluxlen])
  rw [e2]
  simp only [Option.bind_eq_bind, Option.some_bind, Option.some_bind']
  set d := List.zipWith (· - ·) phot flux with hddef
  have hdlen : d.length = mags.length := by simp [hddef, hp, hfluxlen]
  have e3 : bcast1 (· / ·) d pv = some (List.zipWith (· / ·) d pv) :=
    bcast1_eq_zipWith _ _ _ (by rw [hdlen, hpvlen])
  rw [e3]
  simp only [Option.bind_eq_bind, Option.some_bind, Option.some_bind']
  set part := List.map (fun x => -x) (List.zipWith (· / ·) d pv) with hpartdef
  have hpartlen : part.length = mags.length := by simp [hpartdef, hdlen, hpvlen]
  have e4 : mulVecRows part comp_phot
      = some (comp_phot.map (fun r => List.zipWith (· * ·) part r)) := by
    unfold mulVecRows
    exact mapOption_eq_map _ _ comp_phot
      (fun r hr => bcast1_eq_zipWith _ _ _ (by rw [hpartlen, hc r hr]))
  rw [e4]
  simp only [Option.bind_eq_bind, Option.some_bind, Option.some_bind']
  refine congrArg some ?_
  simp only [sumAxis1, List.map_map, Function.comp]
  refine List.map_congr_left (fun r hr => ?_)
  have hrow := photPart_row_sum tenPow mags phot mags_unc r hp hu (hc r hr)
  rw [hpartdef, hddef, hpvdef, hfluxdef]
  exact hrow

/-- Witness for C4 on two filters and two components, with a concrete
stand-in for `10 ** x`. -/
theorem photTerm_sums_all_filters_witness :
    photTerm (fun _ => 2) [3, 4] [1, 2] [1, 1] [[1, 0], [0, 1]]
      = some [-(294849/1000000 : ℚ), -(294849/500000)] := by
  have h := photTerm_sums_all_filters (fun _ => 2) [3, 4] [1, 2] [1, 1]
    [[1, 0], [0, 1]] (by rfl) (by rfl)
    (by intro r hr; simp at hr; rcases hr with h | h <;> subst h <;> rfl)
  rw [h]
  norm_num [photGradMassIdx, Finset.sum_range_succ,
    List.getD_cons_succ, List.getD_cons_zero]

end Prospector
